import Mathlib

/-!
Shallow embedding of `src/train_mnist.py`, a Chainer script that trains an
autoencoder on MNIST.  The pure data and control flow of the script are
translated into Lean: numeric values are modelled by rationals, the network
forward pass and the SGD parameter update are abstract parameters (a
`Backend`), and the external serializer loads are oracle functions returning
`Except`.  External side channels of the script (printing, the graph.dot
dump, image visualisation) have no effect on the modelled state and are
omitted.
-/

namespace TrainMnist

/-- Python slice `xs[i : i + b]` (clamped at the end of the list). -/
def slice {α : Type} (xs : List α) (i b : ℕ) : List α :=
  (xs.drop i).take b

/-- Start indices produced by `six.moves.range(0, stop, step)` for a
positive step: `0, step, 2*step, ...`, strictly below `stop`. -/
def pyRangeStep (stop step : ℕ) : List ℕ :=
  if _h : 0 < step ∧ 0 < stop then
    0 :: (pyRangeStep (stop - step) step).map (· + step)
  else []
termination_by stop
decreasing_by simp_wf; omega

/-- Contiguous batches of `xs` of size `b` (final batch possibly smaller):
the slices `xs[i : i + b]` for `i` ranging over `range(0, len(xs), b)`,
exactly as the training loop (line 107) and the test loop (line 138) of
`train_mnist.py` produce them. -/
def epochBatches {α : Type} (xs : List α) (b : ℕ) : List (List α) :=
  (pyRangeStep xs.length b).map (fun i => slice xs i b)

/-- Raw MNIST data as returned by `data.load_mnist_data()`: byte-valued
feature rows and integer targets. -/
structure RawMnist where
  data : List (List ℕ)
  target : List ℤ

/-- Lines 54-55: `mnist['data'].astype(np.float32)` followed by `/= 255`,
applied to every feature value. -/
def normalize (rows : List (List ℕ)) : List (List ℚ) :=
  rows.map (fun row => row.map (fun v : ℕ => (v : ℚ) / 255))

/-- Line 58: `N = 60000`, the fixed split point. -/
def Ntrain : ℕ := 60000

/-- Line 59: first component of `np.split(mnist['data'], [N])`. -/
def xTrain (raw : RawMnist) : List (List ℚ) := (normalize raw.data).take Ntrain

/-- Line 59: second component of `np.split(mnist['data'], [N])`. -/
def xTest (raw : RawMnist) : List (List ℚ) := (normalize raw.data).drop Ntrain

/-- Line 60: first component of `np.split(mnist['target'], [N])`. -/
def yTrain (raw : RawMnist) : List ℤ := raw.target.take Ntrain

/-- Line 60: second component of `np.split(mnist['target'], [N])`. -/
def yTest (raw : RawMnist) : List ℤ := raw.target.drop Ntrain

/-- Line 61: `N_test = y_test.size`. -/
def nTest (raw : RawMnist) : ℕ := (yTest raw).length

/-- Abstract numerical backend: the `CrossEntropyAutoEncoder` forward pass
(returning the batch-mean loss and batch-mean squared reconstruction error,
which `model(x, t)` caches in `model.loss` and `model.mean_squared_error`)
and the SGD update performed by `optimizer.update(model, x, t)` on the
parameters and on the optimizer state.  `initP`/`initO` are the parameter
and optimizer state right after construction and `optimizer.setup`. -/
structure Backend (P O : Type) where
  forward : P → List (List ℚ) → List ℤ → ℚ × ℚ
  updParams : P → O → List (List ℚ) → List ℤ → P
  updOpt : P → O → List (List ℚ) → List ℤ → O
  initP : P
  initO : O

/-- The model object: its parameters plus the cached `model.loss` and
`model.mean_squared_error` attributes written by each forward pass. -/
structure ModelState (P : Type) where
  params : P
  loss : ℚ
  mse : ℚ

/-- The mutable state of the run: the model and the optimizer state. -/
structure RunState (P O : Type) where
  model : ModelState P
  opt : O

/-- Errors that abort the script: Python's `ValueError` raised by
`range(0, n, 0)`, and I/O errors raised by `serializers.load_npz`. -/
inductive RunError where
  | valueError : RunError
  | ioError : String → RunError

/-- The four per-epoch reported values (lines 126-127 and 171-172):
`sum_loss / N`, `sum_mean_squared_error / N` on the training side and the
same two with divisor `N_test` on the test side. -/
structure EpochReport where
  trainLoss : ℚ
  trainMSE : ℚ
  testLoss : ℚ
  testMSE : ℚ

/-- NumPy fancy indexing `x_train[idx]` for an index list. -/
def gather (xs : List (List ℚ)) (idx : List ℕ) : List (List ℚ) :=
  idx.map (fun i => xs.getD i [])

/-- NumPy fancy indexing `y_train[idx]` for an index list. -/
def gatherT (ys : List ℤ) (idx : List ℕ) : List ℤ :=
  idx.map (fun i => ys.getD i 0)

/-- Training loop body, lines 107-122: for each start index `i` the batch
`x_train[perm[i:i+b]]`, `y_train[perm[i:i+b]]` is formed,
`optimizer.update(model, x, t)` runs the forward pass at the current
parameters and updates parameters and optimizer state, and the accumulators
gain `float(model.loss.data) * len(t.data)` and
`float(model.mean_squared_error.data) * len(t.data)`. -/
def trainLoop {P O : Type} (B : Backend P O) (xtr : List (List ℚ)) (ytr : List ℤ)
    (perm : List ℕ) (b : ℕ) :
    List ℕ → RunState P O → ℚ → ℚ → RunState P O × ℚ × ℚ
  | [], st, sl, sm => (st, sl, sm)
  | i :: rest, st, sl, sm =>
    let idx := slice perm i b
    let x := gather xtr idx
    let t := gatherT ytr idx
    let lm := B.forward st.model.params x t
    let st2 : RunState P O :=
      ⟨⟨B.updParams st.model.params st.opt x t, lm.1, lm.2⟩,
       B.updOpt st.model.params st.opt x t⟩
    trainLoop B xtr ytr perm b rest st2
      (sl + lm.1 * (t.length : ℚ)) (sm + lm.2 * (t.length : ℚ))

/-- Observation of the training loop: the per-batch (mean loss, mean MSE,
batch size) triples in execution order, mirroring `trainLoop` exactly. -/
def trainMetrics {P O : Type} (B : Backend P O) (xtr : List (List ℚ)) (ytr : List ℤ)
    (perm : List ℕ) (b : ℕ) :
    List ℕ → RunState P O → List (ℚ × ℚ × ℕ)
  | [], _ => []
  | i :: rest, st =>
    let idx := slice perm i b
    let x := gather xtr idx
    let t := gatherT ytr idx
    let lm := B.forward st.model.params x t
    let st2 : RunState P O :=
      ⟨⟨B.updParams st.model.params st.opt x t, lm.1, lm.2⟩,
       B.updOpt st.model.params st.opt x t⟩
    (lm.1, lm.2, t.length) :: trainMetrics B xtr ytr perm b rest st2

/-- Evaluation loop body, lines 138-145: sequential slices of the test set,
a forward pass `model(x, t)` with `volatile='on'` that only rewrites the
cached `model.loss` / `model.mean_squared_error`, and the same weighted
accumulation; no optimizer call occurs and parameters are untouched. -/
def evalLoop {P O : Type} (B : Backend P O) (xte : List (List ℚ)) (yte : List ℤ)
    (b : ℕ) :
    List ℕ → RunState P O → ℚ → ℚ → RunState P O × ℚ × ℚ
  | [], st, sl, sm => (st, sl, sm)
  | i :: rest, st, sl, sm =>
    let x := slice xte i b
    let t := slice yte i b
    let lm := B.forward st.model.params x t
    let st2 : RunState P O := ⟨⟨st.model.params, lm.1, lm.2⟩, st.opt⟩
    evalLoop B xte yte b rest st2
      (sl + lm.1 * (t.length : ℚ)) (sm + lm.2 * (t.length : ℚ))

/-- Observation of the evaluation loop: per-batch (mean loss, mean MSE,
batch size) triples in execution order. -/
def evalMetrics {P O : Type} (B : Backend P O) (xte : List (List ℚ)) (yte : List ℤ)
    (b : ℕ) :
    List ℕ → RunState P O → List (ℚ × ℚ × ℕ)
  | [], _ => []
  | i :: rest, st =>
    let x := slice xte i b
    let t := slice yte i b
    let lm := B.forward st.model.params x t
    let st2 : RunState P O := ⟨⟨st.model.params, lm.1, lm.2⟩, st.opt⟩
    (lm.1, lm.2, t.length) :: evalMetrics B xte yte b rest st2

/-- Spec-side formula: the sum of per-batch mean loss times batch size. -/
def lossWSum (ms : List (ℚ × ℚ × ℕ)) : ℚ :=
  (ms.map (fun p => p.1 * (p.2.2 : ℚ))).sum

/-- Spec-side formula: the sum of per-batch mean MSE times batch size. -/
def mseWSum (ms : List (ℚ × ℚ × ℕ)) : ℚ :=
  (ms.map (fun p => p.2.1 * (p.2.2 : ℚ))).sum

/-- Spec-side formula: the total number of samples over the batches. -/
def sizeSum (ms : List (ℚ × ℚ × ℕ)) : ℕ :=
  (ms.map (fun p => p.2.2)).sum

/-- Semantics of `six.moves.range(0, stop, step)` for an arbitrary integer
step as the script may receive from `--batchsize`: step 0 raises
`ValueError`, a negative step yields an empty range (the start 0 is not
greater than the stop), a positive step yields the usual start indices. -/
def rangeStepInt (stop : ℕ) (step : ℤ) : Except RunError (List ℕ) :=
  if step = 0 then Except.error RunError.valueError
  else if step < 0 then Except.ok []
  else Except.ok (pyRangeStep stop step.toNat)

/-- One epoch, lines 100-172: the training pass over `range(0, N, b)` with
the accumulators freshly reset to 0 (lines 104-105), the report
`sum_loss / N`, `sum_mean_squared_error / N`; then the evaluation pass over
`range(0, N_test, b)` with the accumulators reset to 0 again (lines
130-131) and the report with divisor `N_test`. -/
def epochStep {P O : Type} (B : Backend P O) (xtr : List (List ℚ)) (ytr : List ℤ)
    (xte : List (List ℚ)) (yte : List ℤ) (nT : ℕ) (b : ℤ) (perm : List ℕ)
    (st : RunState P O) : Except RunError (RunState P O × EpochReport) :=
  match rangeStepInt Ntrain b with
  | Except.error e => Except.error e
  | Except.ok tStarts =>
    let r := trainLoop B xtr ytr perm b.toNat tStarts st 0 0
    match rangeStepInt nT b with
    | Except.error e => Except.error e
    | Except.ok eStarts =>
      let r2 := evalLoop B xte yte b.toNat eStarts r.1 0 0
      Except.ok (r2.1,
        ⟨r.2.1 / (Ntrain : ℚ), r.2.2 / (Ntrain : ℚ),
         r2.2.1 / (nT : ℚ), r2.2.2 / (nT : ℚ)⟩)

/-- Configuration surface of the script (argparse, lines 27-43). -/
structure Config where
  initmodel : String
  resume : String
  net : String
  gpu : ℤ
  epoch : ℤ
  batchsize : ℤ

/-- Line 99: the epoch numbers `range(1, n_epoch + 1)`. -/
def epochNumbers (nEpoch : ℤ) : List ℕ :=
  (List.range nEpoch.toNat).map (· + 1)

/-- What a completed run leaves behind: the per-epoch reports and the model
and optimizer state written by `serializers.save_npz` (lines 174-178). -/
structure RunOutput (P O : Type) where
  reports : List EpochReport
  savedModel : P
  savedOptimizer : O

/-- The learning loop, lines 99-172: each epoch draws a fresh permutation
`rng e` (modelling `np.random.permutation(N)` from the seeded generator)
and runs `epochStep`; an exception in an epoch aborts the run. -/
def runEpochs {P O : Type} (B : Backend P O) (xtr : List (List ℚ)) (ytr : List ℤ)
    (xte : List (List ℚ)) (yte : List ℤ) (nT : ℕ) (b : ℤ) (rng : ℕ → List ℕ) :
    List ℕ → RunState P O → Except RunError (RunState P O × List EpochReport)
  | [], st => Except.ok (st, [])
  | e :: es, st =>
    match epochStep B xtr ytr xte yte nT b (rng e) st with
    | Except.error err => Except.error err
    | Except.ok (st1, rep) =>
      match runEpochs B xtr ytr xte yte nT b rng es st1 with
      | Except.error err => Except.error err
      | Except.ok (st2, reps) => Except.ok (st2, rep :: reps)

/-- The whole script, lines 42-178: dataset preparation and split, model
and optimizer construction, the init/resume loads of lines 91-96 (attempted
exactly when the corresponding path is a non-empty string, any load failure
propagating), the learning loop, and the final saves. -/
def run {P O : Type} (B : Backend P O) (raw : RawMnist)
    (loadModel : String → Except RunError P)
    (loadOpt : String → Except RunError O)
    (rng : ℕ → List ℕ) (cfg : Config) : Except RunError (RunOutput P O) :=
  match (if cfg.initmodel = "" then Except.ok B.initP else loadModel cfg.initmodel) with
  | Except.error e => Except.error e
  | Except.ok p0 =>
    match (if cfg.resume = "" then Except.ok B.initO else loadOpt cfg.resume) with
    | Except.error e => Except.error e
    | Except.ok o0 =>
      match runEpochs B (xTrain raw) (yTrain raw) (xTest raw) (yTest raw)
          (nTest raw) cfg.batchsize rng (epochNumbers cfg.epoch)
          ⟨⟨p0, 0, 0⟩, o0⟩ with
      | Except.error e => Except.error e
      | Except.ok (stF, reps) => Except.ok ⟨reps, stF.model.params, stF.opt⟩

/-- Trivial backend over unit parameter and optimizer types, used to
instantiate the general theorems at concrete inputs. -/
def B0 : Backend Unit Unit :=
  ⟨fun _ _ _ => (1, 2), fun _ _ _ _ => (), fun _ _ _ _ => (), (), ()⟩

/-- Empty raw dataset for concrete instantiations. -/
def raw0 : RawMnist := ⟨[], []⟩

/-- Raw dataset with exactly 60000 rows, so the test split is empty. -/
def raw60k : RawMnist := ⟨List.replicate 60000 [], List.replicate 60000 0⟩

/-- Loader oracle that always fails, modelling a missing checkpoint file. -/
def ld0 : String → Except RunError Unit :=
  fun _ => Except.error (RunError.ioError "load failed")

/-- Loader oracle that always succeeds. -/
def ldOk : String → Except RunError Unit := fun _ => Except.ok ()

/-- Permutation stream returning the identity permutation of `Ntrain`. -/
def rngId : ℕ → List ℕ := fun _ => List.range Ntrain

/-- Permutation stream returning the empty list. -/
def rng0 : ℕ → List ℕ := fun _ => []

/-- Initial run state over unit types. -/
def st0 : RunState Unit Unit := ⟨⟨(), 0, 0⟩, ()⟩

theorem pyRangeStep_eq (stop step : ℕ) :
    pyRangeStep stop step =
      if 0 < step ∧ 0 < stop then
        0 :: (pyRangeStep (stop - step) step).map (· + step)
      else [] := by
  rw [pyRangeStep]
  exact dite_eq_ite

theorem pyRangeStep_zero (step : ℕ) : pyRangeStep 0 step = [] := by
  rw [pyRangeStep_eq]
  simp

theorem epochBatches_nil {α : Type} (b : ℕ) : epochBatches ([] : List α) b = [] := by
  simp [epochBatches, pyRangeStep_zero]

theorem slice_shift {α : Type} (xs : List α) (i b : ℕ) :
    slice xs (i + b) b = slice (xs.drop b) i b := by
  simp [slice, List.drop_drop, Nat.add_comm]

theorem epochBatches_cons {α : Type} (xs : List α) (b : ℕ) (hb : 0 < b)
    (hx : xs ≠ []) :
    epochBatches xs b = xs.take b :: epochBatches (xs.drop b) b := by
  have hlen : 0 < xs.length := List.length_pos.mpr hx
  unfold epochBatches
  rw [pyRangeStep_eq, if_pos ⟨hb, hlen⟩, List.map_cons, List.map_map,
    List.length_drop]
  refine congrArg₂ _ ?_ ?_
  · simp [slice]
  · refine List.map_congr_left (fun i _ => ?_)
    exact slice_shift xs i b

theorem epochBatches_flatten_aux {α : Type} (b : ℕ) (hb : 0 < b) :
    ∀ (n : ℕ) (xs : List α), xs.length ≤ n → (epochBatches xs b).flatten = xs := by
  intro n
  induction n with
  | zero =>
    intro xs h
    have hx : xs = [] := List.eq_nil_of_length_eq_zero (Nat.le_zero.mp h)
    subst hx
    simp [epochBatches_nil]
  | succ n ih =>
    intro xs h
    by_cases hx : xs = []
    · subst hx; simp [epochBatches_nil]
    · rw [epochBatches_cons xs b hb hx, List.flatten_cons,
        ih (xs.drop b) (by rw [List.length_drop]; omega),
        List.take_append_drop]

/-- Joining the contiguous batches recovers the whole list. -/
theorem epochBatches_flatten {α : Type} (xs : List α) (b : ℕ) (hb : 0 < b) :
    (epochBatches xs b).flatten = xs :=
  epochBatches_flatten_aux b hb xs.length xs le_rfl

theorem epochBatches_lengths_aux {α : Type} (b : ℕ) (hb : 0 < b) :
    ∀ (n : ℕ) (xs : List α), xs.length ≤ n → ¬ b ∣ xs.length →
      (epochBatches xs b).map List.length
        = List.replicate (xs.length / b) b ++ [xs.length % b] := by
  intro n
  induction n with
  | zero =>
    intro xs h hd
    have hx : xs.length = 0 := Nat.le_zero.mp h
    exact absurd (hx ▸ dvd_zero b) hd
  | succ n ih =>
    intro xs h hd
    have hx : xs ≠ [] := by
      rintro rfl
      exact hd (by simp)
    rw [epochBatches_cons xs b hb hx, List.map_cons]
    by_cases hcase : xs.length < b
    · have hdrop : xs.drop b = [] := List.drop_eq_nil_of_le (Nat.le_of_lt hcase)
      have h1 : (xs.take b).length = xs.length := by
        rw [List.length_take]; omega
      have h2 : xs.length / b = 0 := Nat.div_eq_of_lt hcase
      have h3 : xs.length % b = xs.length := Nat.mod_eq_of_lt hcase
      rw [hdrop, epochBatches_nil, List.map_nil, h1, h2, h3]
      simp
    · have hbl : b ≤ xs.length := Nat.le_of_not_lt hcase
      have hdlen : (xs.drop b).length = xs.length - b := List.length_drop b xs
      have hd2 : ¬ b ∣ (xs.drop b).length := by
        rw [hdlen]
        intro hc
        apply hd
        have := Nat.sub_add_cancel hbl
        calc b ∣ (xs.length - b) + b := dvd_add hc dvd_rfl
          _ = xs.length := this
      rw [ih (xs.drop b) (by omega) hd2, hdlen]
      obtain ⟨m, hm⟩ : ∃ m, xs.length = m + b :=
        ⟨xs.length - b, (Nat.sub_add_cancel hbl).symm⟩
      have h1 : (xs.take b).length = b := by rw [List.length_take]; omega
      rw [h1, hm, Nat.add_sub_cancel, Nat.add_div_right m hb,
        Nat.add_mod_right m b, List.replicate_succ, List.cons_append]

/-- The batch sizes are `b` repeated `n / b` times followed by `n % b`
when `b` does not divide `n`. -/
theorem epochBatches_lengths {α : Type} (xs : List α) (b : ℕ) (hb : 0 < b)
    (hd : ¬ b ∣ xs.length) :
    (epochBatches xs b).map List.length
      = List.replicate (xs.length / b) b ++ [xs.length % b] :=
  epochBatches_lengths_aux b hb xs.length xs le_rfl hd

/-- The slice lengths over the start indices sum to the list length. -/
theorem sliceSizes_sum {α : Type} (xs : List α) (b : ℕ) (hb : 0 < b) :
    ((pyRangeStep xs.length b).map (fun i => (slice xs i b).length)).sum
      = xs.length := by
  have h := congrArg List.length (epochBatches_flatten xs b hb)
  rw [List.length_flatten] at h
  simpa [epochBatches, List.map_map, Function.comp] using h

theorem row_div_bounds :
    ∀ (l : List ℕ), (∀ v ∈ l, v ≤ 255) →
      ∀ q ∈ l.map (fun v : ℕ => (v : ℚ) / 255), 0 ≤ q ∧ q ≤ 1 := by
  intro l
  induction l with
  | nil => intro _ q hq; simp at hq
  | cons a t ih =>
    intro hl q hq
    rw [List.map_cons, List.mem_cons] at hq
    rcases hq with rfl | hq
    · refine ⟨by positivity, ?_⟩
      rw [div_le_one (by norm_num)]
      exact_mod_cast hl a (List.mem_cons_self a t)
    · exact ih (fun v hv => hl v (List.mem_cons_of_mem a hv)) q hq

theorem trainLoop_sums {P O : Type} (B : Backend P O) (xtr : List (List ℚ))
    (ytr : List ℤ) (perm : List ℕ) (b : ℕ) :
    ∀ (starts : List ℕ) (st : RunState P O) (sl sm : ℚ),
      (trainLoop B xtr ytr perm b starts st sl sm).2.1
          = sl + lossWSum (trainMetrics B xtr ytr perm b starts st) ∧
      (trainLoop B xtr ytr perm b starts st sl sm).2.2
          = sm + mseWSum (trainMetrics B xtr ytr perm b starts st) := by
  intro starts
  induction starts with
  | nil =>
    intro st sl sm
    simp [trainLoop, trainMetrics, lossWSum, mseWSum]
  | cons i rest ih =>
    intro st sl sm
    simp only [trainLoop, trainMetrics, lossWSum, mseWSum, List.map_cons,
      List.sum_cons]
    constructor
    · rw [(ih _ _ _).1, lossWSum]; ring
    · rw [(ih _ _ _).2, mseWSum]; ring

theorem trainMetrics_sizes {P O : Type} (B : Backend P O) (xtr : List (List ℚ))
    (ytr : List ℤ) (perm : List ℕ) (b : ℕ) :
    ∀ (starts : List ℕ) (st : RunState P O),
      (trainMetrics B xtr ytr perm b starts st).map (fun p => p.2.2)
        = starts.map (fun i => (slice perm i b).length) := by
  intro starts
  induction starts with
  | nil => intro st; simp [trainMetrics]
  | cons i rest ih =>
    intro st
    simp only [trainMetrics, List.map_cons, gatherT, List.length_map]
    rw [ih]

theorem evalLoop_sums {P O : Type} (B : Backend P O) (xte : List (List ℚ))
    (yte : List ℤ) (b : ℕ) :
    ∀ (starts : List ℕ) (st : RunState P O) (sl sm : ℚ),
      (evalLoop B xte yte b starts st sl sm).2.1
          = sl + lossWSum (evalMetrics B xte yte b starts st) ∧
      (evalLoop B xte yte b starts st sl sm).2.2
          = sm + mseWSum (evalMetrics B xte yte b starts st) := by
  intro starts
  induction starts with
  | nil =>
    intro st sl sm
    simp [evalLoop, evalMetrics, lossWSum, mseWSum]
  | cons i rest ih =>
    intro st sl sm
    simp only [evalLoop, evalMetrics, lossWSum, mseWSum, List.map_cons,
      List.sum_cons]
    constructor
    · rw [(ih _ _ _).1, lossWSum]; ring
    · rw [(ih _ _ _).2, mseWSum]; ring

theorem evalMetrics_sizes {P O : Type} (B : Backend P O) (xte : List (List ℚ))
    (yte : List ℤ) (b : ℕ) :
    ∀ (starts : List ℕ) (st : RunState P O),
      (evalMetrics B xte yte b starts st).map (fun p => p.2.2)
        = starts.map (fun i => (slice yte i b).length) := by
  intro starts
  induction starts with
  | nil => intro st; simp [evalMetrics]
  | cons i rest ih =>
    intro st
    simp only [evalMetrics, List.map_cons]
    rw [ih]

theorem evalLoop_frame {P O : Type} (B : Backend P O) (xte : List (List ℚ))
    (yte : List ℤ) (b : ℕ) :
    ∀ (starts : List ℕ) (st : RunState P O) (sl sm : ℚ),
      (evalLoop B xte yte b starts st sl sm).1.model.params
          = st.model.params ∧
      (evalLoop B xte yte b starts st sl sm).1.opt = st.opt := by
  intro starts
  induction starts with
  | nil => intro st sl sm; simp [evalLoop]
  | cons i rest ih =>
    intro st sl sm
    simp only [evalLoop]
    exact ih _ _ _

theorem rangeStepInt_pos (n : ℕ) (b : ℤ) (hb : 0 < b) :
    rangeStepInt n b = Except.ok (pyRangeStep n b.toNat) := by
  unfold rangeStepInt
  rw [if_neg (by omega), if_neg (by omega)]

theorem rangeStepInt_zero (n : ℕ) :
    rangeStepInt n 0 = Except.error RunError.valueError := by
  simp [rangeStepInt]

theorem rangeStepInt_neg (n : ℕ) (b : ℤ) (hb : b < 0) :
    rangeStepInt n b = Except.ok [] := by
  unfold rangeStepInt
  rw [if_neg (by omega), if_pos hb]

theorem epochStep_pos {P O : Type} (B : Backend P O) (xtr : List (List ℚ))
    (ytr : List ℤ) (xte : List (List ℚ)) (yte : List ℤ) (nT : ℕ) (b : ℤ)
    (perm : List ℕ) (st : RunState P O) (hb : 0 < b) :
    epochStep B xtr ytr xte yte nT b perm st
      = Except.ok
          ((evalLoop B xte yte b.toNat (pyRangeStep nT b.toNat)
              (trainLoop B xtr ytr perm b.toNat (pyRangeStep Ntrain b.toNat)
                st 0 0).1 0 0).1,
           ⟨(trainLoop B xtr ytr perm b.toNat (pyRangeStep Ntrain b.toNat)
                st 0 0).2.1 / (Ntrain : ℚ),
            (trainLoop B xtr ytr perm b.toNat (pyRangeStep Ntrain b.toNat)
                st 0 0).2.2 / (Ntrain : ℚ),
            (evalLoop B xte yte b.toNat (pyRangeStep nT b.toNat)
              (trainLoop B xtr ytr perm b.toNat (pyRangeStep Ntrain b.toNat)
                st 0 0).1 0 0).2.1 / (nT : ℚ),
            (evalLoop B xte yte b.toNat (pyRangeStep nT b.toNat)
              (trainLoop B xtr ytr perm b.toNat (pyRangeStep Ntrain b.toNat)
                st 0 0).1 0 0).2.2 / (nT : ℚ)⟩) := by
  simp only [epochStep, rangeStepInt_pos _ _ hb]

theorem epochStep_zero {P O : Type} (B : Backend P O) (xtr : List (List ℚ))
    (ytr : List ℤ) (xte : List (List ℚ)) (yte : List ℤ) (nT : ℕ)
    (perm : List ℕ) (st : RunState P O) :
    epochStep B xtr ytr xte yte nT 0 perm st
      = Except.error RunError.valueError := by
  simp only [epochStep, rangeStepInt_zero]

theorem epochStep_neg {P O : Type} (B : Backend P O) (xtr : List (List ℚ))
    (ytr : List ℤ) (xte : List (List ℚ)) (yte : List ℤ) (nT : ℕ) (b : ℤ)
    (perm : List ℕ) (st : RunState P O) (hb : b < 0) :
    epochStep B xtr ytr xte yte nT b perm st
      = Except.ok (st, ⟨0, 0, 0, 0⟩) := by
  simp only [epochStep, rangeStepInt_neg _ _ hb, trainLoop, evalLoop]
  simp [zero_div]

theorem runEpochs_neg {P O : Type} (B : Backend P O) (xtr : List (List ℚ))
    (ytr : List ℤ) (xte : List (List ℚ)) (yte : List ℤ) (nT : ℕ) (b : ℤ)
    (rng : ℕ → List ℕ) (hb : b < 0) :
    ∀ (es : List ℕ) (st : RunState P O),
      runEpochs B xtr ytr xte yte nT b rng es st
        = Except.ok (st, List.replicate es.length ⟨0, 0, 0, 0⟩) := by
  intro es
  induction es with
  | nil => intro st; simp [runEpochs]
  | cons e es ih =>
    intro st
    simp only [runEpochs, epochStep_neg _ _ _ _ _ _ _ _ _ hb, ih st,
      List.length_cons, List.replicate_succ]

/-- C2: for every dataset size and positive batch size `b` that does not
divide it, the per-epoch batching of `train_mnist.py` (slices at
`range(0, n, b)`) partitions the list into contiguous batches of size `b`
followed by one final batch of size `n % b`; no sample is dropped and no
batch is padded.  The list is arbitrary, so this covers both the training
partition over permuted indices and the test partition over the sequential
test set. -/
theorem c2_partial_final_batch {α : Type} (xs : List α) (b : ℕ) (hb : 0 < b)
    (hd : ¬ b ∣ xs.length) :
    (epochBatches xs b).map List.length
        = List.replicate (xs.length / b) b ++ [xs.length % b] ∧
    (epochBatches xs b).flatten = xs :=
  ⟨epochBatches_lengths xs b hb hd, epochBatches_flatten xs b hb⟩

/-- Witness for C2 at the spec's example: 7 samples with batch size 3 give
batch sizes `[3, 3, 1]` and join back to the original list. -/
theorem c2_partial_final_batch_witness :
    (0 < 3 ∧ ¬ (3 : ℕ) ∣ (List.range 7).length) ∧
    ((epochBatches (List.range 7) 3).map List.length
        = List.replicate ((List.range 7).length / 3) 3
            ++ [(List.range 7).length % 3] ∧
     (epochBatches (List.range 7) 3).flatten = List.range 7) :=
  ⟨⟨by decide, by decide⟩,
   c2_partial_final_batch (List.range 7) 3 (by decide) (by decide)⟩

/-- C4: the permutation drawn for epoch `e` from the stream `rng`
(modelling the fresh `np.random.permutation(N)` of line 103) is consumed
by the batch slices so that the indices processed in the epoch are exactly
the permutation itself; hence they are a permutation of `range N` and every
training index (so every training sample) occurs in exactly one minibatch:
one full pass over the training dataset. -/
theorem c4_epoch_processes_each_sample_once (rng : ℕ → List ℕ) (b e : ℕ)
    (hb : 0 < b) (h : (rng e).Perm (List.range Ntrain)) :
    (epochBatches (rng e) b).flatten = rng e ∧
    ((epochBatches (rng e) b).flatten).Perm (List.range Ntrain) ∧
    ∀ j, j < Ntrain → ((epochBatches (rng e) b).flatten).count j = 1 := by
  have hj := epochBatches_flatten (rng e) b hb
  refine ⟨hj, by rw [hj]; exact h, fun j hjlt => ?_⟩
  rw [hj, h.count_eq]
  exact List.count_eq_one_of_mem (List.nodup_range Ntrain)
    (List.mem_range.mpr hjlt)

/-- Witness for C4: batch size 100 and the identity permutation stream. -/
theorem c4_epoch_processes_each_sample_once_witness :
    (epochBatches (rngId 0) 100).flatten = rngId 0 ∧
    ((epochBatches (rngId 0) 100).flatten).Perm (List.range Ntrain) ∧
    ∀ j, j < Ntrain → ((epochBatches (rngId 0) 100).flatten).count j = 1 :=
  c4_epoch_processes_each_sample_once rngId 100 0 (by decide)
    (List.Perm.refl (List.range Ntrain))

/-- C5: the evaluation pass is a read-only forward computation: however
many batches it processes, it leaves the network parameters and the
optimizer state exactly as they were (no optimizer call occurs), and its
batches are the sequential contiguous slices of the test set in order
(no shuffling), which join back to the test set itself. -/
theorem c5_eval_read_only {P O : Type} (B : Backend P O)
    (xte : List (List ℚ)) (yte : List ℤ) (b : ℕ) (starts : List ℕ)
    (st : RunState P O) (sl sm : ℚ) (hb : 0 < b) :
    (evalLoop B xte yte b starts st sl sm).1.model.params
        = st.model.params ∧
    (evalLoop B xte yte b starts st sl sm).1.opt = st.opt ∧
    epochBatches xte b
        = (pyRangeStep xte.length b).map (fun i => slice xte i b) ∧
    (epochBatches xte b).flatten = xte := by
  obtain ⟨h1, h2⟩ := evalLoop_frame B xte yte b starts st sl sm
  exact ⟨h1, h2, rfl, epochBatches_flatten xte b hb⟩

/-- Witness for C5 at a concrete two-row test set with batch size 1. -/
theorem c5_eval_read_only_witness :
    (evalLoop B0 [[0], [1]] [3, 4] 1 [0, 1] st0 0 0).1.model.params
        = st0.model.params ∧
    (evalLoop B0 [[0], [1]] [3, 4] 1 [0, 1] st0 0 0).1.opt = st0.opt ∧
    epochBatches [[(0 : ℚ)], [1]] 1
        = (pyRangeStep ([[(0 : ℚ)], [1]] : List (List ℚ)).length 1).map
            (fun i => slice [[(0 : ℚ)], [1]] i 1) ∧
    (epochBatches [[(0 : ℚ)], [1]] 1).flatten = [[(0 : ℚ)], [1]] :=
  c5_eval_read_only B0 [[0], [1]] [3, 4] 1 [0, 1] st0 0 0 (by decide)

/-- C8: dataset preparation maps every raw byte value `v` to `v / 255` as
a rational (the float conversion plus in-place division of lines 54-55),
so with raw values at most 255 every prepared feature lies in `[0, 1]`;
and the split of lines 58-61 takes the first 60000 prepared rows (and
targets) as the training set and all remaining rows as the test set, the
two parts concatenating back to the whole dataset. -/
theorem c8_dataset_preparation (raw : RawMnist)
    (h : ∀ row ∈ raw.data, ∀ v ∈ row, v ≤ 255) :
    (∀ row ∈ normalize raw.data, ∀ q ∈ row, 0 ≤ q ∧ q ≤ 1) ∧
    xTrain raw = (normalize raw.data).take 60000 ∧
    xTest raw = (normalize raw.data).drop 60000 ∧
    xTrain raw ++ xTest raw = normalize raw.data ∧
    yTrain raw = raw.target.take 60000 ∧
    yTest raw = raw.target.drop 60000 ∧
    yTrain raw ++ yTest raw = raw.target := by
  refine ⟨?_, rfl, rfl, List.take_append_drop _ _, rfl, rfl,
    List.take_append_drop _ _⟩
  intro row hrow
  rw [normalize, List.mem_map] at hrow
  obtain ⟨row0, hrow0, rfl⟩ := hrow
  exact row_div_bounds row0 (h row0 hrow0)

/-- Witness for C8 at a two-value row holding the extreme bytes 0 and
255. -/
theorem c8_dataset_preparation_witness :
    (∀ row ∈ (RawMnist.data ⟨[[0, 255]], [5]⟩),
        ∀ v ∈ row, v ≤ 255) ∧
    ((∀ row ∈ normalize (RawMnist.data ⟨[[0, 255]], [5]⟩),
        ∀ q ∈ row, 0 ≤ q ∧ q ≤ 1) ∧
     xTrain ⟨[[0, 255]], [5]⟩
        = (normalize (RawMnist.data ⟨[[0, 255]], [5]⟩)).take 60000 ∧
     xTest ⟨[[0, 255]], [5]⟩
        = (normalize (RawMnist.data ⟨[[0, 255]], [5]⟩)).drop 60000 ∧
     xTrain ⟨[[0, 255]], [5]⟩ ++ xTest ⟨[[0, 255]], [5]⟩
        = normalize (RawMnist.data ⟨[[0, 255]], [5]⟩) ∧
     yTrain ⟨[[0, 255]], [5]⟩ = (RawMnist.target ⟨[[0, 255]], [5]⟩).take 60000 ∧
     yTest ⟨[[0, 255]], [5]⟩ = (RawMnist.target ⟨[[0, 255]], [5]⟩).drop 60000 ∧
     yTrain ⟨[[0, 255]], [5]⟩ ++ yTest ⟨[[0, 255]], [5]⟩
        = RawMnist.target ⟨[[0, 255]], [5]⟩) :=
  ⟨by decide, c8_dataset_preparation ⟨[[0, 255]], [5]⟩ (by decide)⟩

/-- C1: for an epoch with positive batch size, the reported mean training
loss and mean reconstruction error equal the batch-size-weighted average of
the per-batch mean values — the loop accumulates (per-batch mean times
batch size) and divides by the total training-sample count `N`, whose value
the batch sizes sum to — and the test-phase report is computed the same way
with divisor `N_test`; the reported values are means over samples, not
sums. -/
theorem c1_report_weighted_average {P O : Type} (B : Backend P O)
    (xtr : List (List ℚ)) (ytr : List ℤ) (xte : List (List ℚ)) (yte : List ℤ)
    (b : ℤ) (perm : List ℕ) (st : RunState P O)
    (hb : 0 < b) (hperm : perm.length = Ntrain) :
    ∃ stOut rep,
      epochStep B xtr ytr xte yte yte.length b perm st
          = Except.ok (stOut, rep) ∧
      sizeSum (trainMetrics B xtr ytr perm b.toNat
          (pyRangeStep Ntrain b.toNat) st) = Ntrain ∧
      rep.trainLoss
          = lossWSum (trainMetrics B xtr ytr perm b.toNat
                (pyRangeStep Ntrain b.toNat) st)
            / ((sizeSum (trainMetrics B xtr ytr perm b.toNat
                (pyRangeStep Ntrain b.toNat) st) : ℕ) : ℚ) ∧
      rep.trainLoss
          = lossWSum (trainMetrics B xtr ytr perm b.toNat
                (pyRangeStep Ntrain b.toNat) st) / (Ntrain : ℚ) ∧
      rep.trainMSE
          = mseWSum (trainMetrics B xtr ytr perm b.toNat
                (pyRangeStep Ntrain b.toNat) st)
            / ((sizeSum (trainMetrics B xtr ytr perm b.toNat
                (pyRangeStep Ntrain b.toNat) st) : ℕ) : ℚ) ∧
      rep.trainMSE
          = mseWSum (trainMetrics B xtr ytr perm b.toNat
                (pyRangeStep Ntrain b.toNat) st) / (Ntrain : ℚ) ∧
      sizeSum (evalMetrics B xte yte b.toNat
          (pyRangeStep yte.length b.toNat)
          (trainLoop B xtr ytr perm b.toNat
            (pyRangeStep Ntrain b.toNat) st 0 0).1) = yte.length ∧
      rep.testLoss
          = lossWSum (evalMetrics B xte yte b.toNat
                (pyRangeStep yte.length b.toNat)
                (trainLoop B xtr ytr perm b.toNat
                  (pyRangeStep Ntrain b.toNat) st 0 0).1)
            / ((sizeSum (evalMetrics B xte yte b.toNat
                (pyRangeStep yte.length b.toNat)
                (trainLoop B xtr ytr perm b.toNat
                  (pyRangeStep Ntrain b.toNat) st 0 0).1) : ℕ) : ℚ) ∧
      rep.testLoss
          = lossWSum (evalMetrics B xte yte b.toNat
                (pyRangeStep yte.length b.toNat)
                (trainLoop B xtr ytr perm b.toNat
                  (pyRangeStep Ntrain b.toNat) st 0 0).1)
            / ((yte.length : ℕ) : ℚ) ∧
      rep.testMSE
          = mseWSum (evalMetrics B xte yte b.toNat
                (pyRangeStep yte.length b.toNat)
                (trainLoop B xtr ytr perm b.toNat
                  (pyRangeStep Ntrain b.toNat) st 0 0).1)
            / ((yte.length : ℕ) : ℚ) := by
  have hbn : 0 < b.toNat := by omega
  have hsz1 : sizeSum (trainMetrics B xtr ytr perm b.toNat
      (pyRangeStep Ntrain b.toNat) st) = Ntrain := by
    rw [sizeSum, trainMetrics_sizes]
    have h := sliceSizes_sum perm b.toNat hbn
    rw [hperm] at h
    exact h
  have hsz2 : sizeSum (evalMetrics B xte yte b.toNat
      (pyRangeStep yte.length b.toNat)
      (trainLoop B xtr ytr perm b.toNat
        (pyRangeStep Ntrain b.toNat) st 0 0).1) = yte.length := by
    rw [sizeSum, evalMetrics_sizes]
    exact sliceSizes_sum yte b.toNat hbn
  obtain ⟨htl, htm⟩ := trainLoop_sums B xtr ytr perm b.toNat
    (pyRangeStep Ntrain b.toNat) st 0 0
  obtain ⟨hel, hem⟩ := evalLoop_sums B xte yte b.toNat
    (pyRangeStep yte.length b.toNat)
    (trainLoop B xtr ytr perm b.toNat (pyRangeStep Ntrain b.toNat) st 0 0).1
    0 0
  refine ⟨_, _, epochStep_pos B xtr ytr xte yte yte.length b perm st hb,
    hsz1, ?_, ?_, ?_, ?_, hsz2, ?_, ?_, ?_⟩
  · show (trainLoop B xtr ytr perm b.toNat (pyRangeStep Ntrain b.toNat)
        st 0 0).2.1 / (Ntrain : ℚ) = _
    rw [htl, zero_add, hsz1]
  · show (trainLoop B xtr ytr perm b.toNat (pyRangeStep Ntrain b.toNat)
        st 0 0).2.1 / (Ntrain : ℚ) = _
    rw [htl, zero_add]
  · show (trainLoop B xtr ytr perm b.toNat (pyRangeStep Ntrain b.toNat)
        st 0 0).2.2 / (Ntrain : ℚ) = _
    rw [htm, zero_add, hsz1]
  · show (trainLoop B xtr ytr perm b.toNat (pyRangeStep Ntrain b.toNat)
        st 0 0).2.2 / (Ntrain : ℚ) = _
    rw [htm, zero_add]
  · show (evalLoop B xte yte b.toNat (pyRangeStep yte.length b.toNat)
        (trainLoop B xtr ytr perm b.toNat (pyRangeStep Ntrain b.toNat)
          st 0 0).1 0 0).2.1 / ((yte.length : ℕ) : ℚ) = _
    rw [hel, zero_add, hsz2]
  · show (evalLoop B xte yte b.toNat (pyRangeStep yte.length b.toNat)
        (trainLoop B xtr ytr perm b.toNat (pyRangeStep Ntrain b.toNat)
          st 0 0).1 0 0).2.1 / ((yte.length : ℕ) : ℚ) = _
    rw [hel, zero_add]
  · show (evalLoop B xte yte b.toNat (pyRangeStep yte.length b.toNat)
        (trainLoop B xtr ytr perm b.toNat (pyRangeStep Ntrain b.toNat)
          st 0 0).1 0 0).2.2 / ((yte.length : ℕ) : ℚ) = _
    rw [hem, zero_add]

/-- Witness for C1 at the trivial backend, the identity permutation and
batch size 1. -/
theorem c1_report_weighted_average_witness :
    ∃ stOut rep,
      epochStep B0 [] [] [] [] ([] : List ℤ).length 1 (List.range Ntrain) st0
          = Except.ok (stOut, rep) ∧
      rep.trainLoss
          = lossWSum (trainMetrics B0 [] [] (List.range Ntrain) (1 : ℤ).toNat
                (pyRangeStep Ntrain (1 : ℤ).toNat) st0) / (Ntrain : ℚ) := by
  obtain ⟨stOut, rep, h1, _, _, h4, _⟩ :=
    c1_report_weighted_average B0 [] [] [] [] 1 (List.range Ntrain) st0
      (by decide) (by simp)
  exact ⟨stOut, rep, h1, h4⟩

/-- C9: the loss and reconstruction-error accumulators are reset to zero at
the start of each epoch phase.  Had they started at arbitrary values, those
values would be carried additively into the reported sums (first two
conjunct pairs); the epoch of `train_mnist.py` computes both its training
report and its test report from folds whose accumulators start at 0 (last
conjunct), so no phase's reported mean includes contributions from a
previous phase or epoch. -/
theorem c9_accumulators_reset {P O : Type} (B : Backend P O)
    (xtr : List (List ℚ)) (ytr : List ℤ) (xte : List (List ℚ)) (yte : List ℤ)
    (perm : List ℕ) (nT : ℕ) (b : ℤ) (starts starts2 : List ℕ)
    (st st2 : RunState P O) (sl sm sl2 sm2 : ℚ) (hb : 0 < b) :
    ((trainLoop B xtr ytr perm b.toNat starts st sl sm).2.1
        = sl + (trainLoop B xtr ytr perm b.toNat starts st 0 0).2.1 ∧
     (trainLoop B xtr ytr perm b.toNat starts st sl sm).2.2
        = sm + (trainLoop B xtr ytr perm b.toNat starts st 0 0).2.2) ∧
    ((evalLoop B xte yte b.toNat starts2 st2 sl2 sm2).2.1
        = sl2 + (evalLoop B xte yte b.toNat starts2 st2 0 0).2.1 ∧
     (evalLoop B xte yte b.toNat starts2 st2 sl2 sm2).2.2
        = sm2 + (evalLoop B xte yte b.toNat starts2 st2 0 0).2.2) ∧
    epochStep B xtr ytr xte yte nT b perm st
      = Except.ok
          ((evalLoop B xte yte b.toNat (pyRangeStep nT b.toNat)
              (trainLoop B xtr ytr perm b.toNat (pyRangeStep Ntrain b.toNat)
                st 0 0).1 0 0).1,
           ⟨(trainLoop B xtr ytr perm b.toNat (pyRangeStep Ntrain b.toNat)
                st 0 0).2.1 / (Ntrain : ℚ),
            (trainLoop B xtr ytr perm b.toNat (pyRangeStep Ntrain b.toNat)
                st 0 0).2.2 / (Ntrain : ℚ),
            (evalLoop B xte yte b.toNat (pyRangeStep nT b.toNat)
              (trainLoop B xtr ytr perm b.toNat (pyRangeStep Ntrain b.toNat)
                st 0 0).1 0 0).2.1 / (nT : ℚ),
            (evalLoop B xte yte b.toNat (pyRangeStep nT b.toNat)
              (trainLoop B xtr ytr perm b.toNat (pyRangeStep Ntrain b.toNat)
                st 0 0).1 0 0).2.2 / (nT : ℚ)⟩) := by
  refine ⟨⟨?_, ?_⟩, ⟨?_, ?_⟩,
    epochStep_pos B xtr ytr xte yte nT b perm st hb⟩
  · rw [(trainLoop_sums B xtr ytr perm b.toNat starts st sl sm).1,
      (trainLoop_sums B xtr ytr perm b.toNat starts st 0 0).1, zero_add]
  · rw [(trainLoop_sums B xtr ytr perm b.toNat starts st sl sm).2,
      (trainLoop_sums B xtr ytr perm b.toNat starts st 0 0).2, zero_add]
  · rw [(evalLoop_sums B xte yte b.toNat starts2 st2 sl2 sm2).1,
      (evalLoop_sums B xte yte b.toNat starts2 st2 0 0).1, zero_add]
  · rw [(evalLoop_sums B xte yte b.toNat starts2 st2 sl2 sm2).2,
      (evalLoop_sums B xte yte b.toNat starts2 st2 0 0).2, zero_add]

/-- Witness for C9 at concrete accumulators 5 and 7. -/
theorem c9_accumulators_reset_witness :
    (trainLoop B0 [] [] [] (1 : ℤ).toNat [0] st0 5 7).2.1
        = 5 + (trainLoop B0 [] [] [] (1 : ℤ).toNat [0] st0 0 0).2.1 := by
  obtain ⟨⟨h, _⟩, _⟩ :=
    c9_accumulators_reset B0 [] [] [] [] [] 0 1 [0] [0] st0 st0 5 7 3 4
      (by decide)
  exact h

/-- C10: if the loaded dataset has exactly 60000 samples the test split is
empty: `N_test = 0`, the evaluation loop runs over an empty start-index
range (zero iterations), and the per-epoch test report divides the zero
accumulators by `N_test = 0` — the divisor of the test summary is the
literal 0, so the division is meaningful only under `N_test > 0` (rational
division by zero being a total stub here). -/
theorem c10_empty_test_split {P O : Type} (B : Backend P O) (raw : RawMnist)
    (b : ℤ) (perm : List ℕ) (st : RunState P O)
    (hdata : raw.data.length = 60000) (htarget : raw.target.length = 60000)
    (hb : 0 < b) :
    nTest raw = 0 ∧
    xTest raw = [] ∧
    rangeStepInt (nTest raw) b = Except.ok [] ∧
    (∀ (st2 : RunState P O) (sl sm : ℚ),
        evalLoop B (xTest raw) (yTest raw) b.toNat [] st2 sl sm
          = (st2, sl, sm)) ∧
    ∃ stOut rep,
      epochStep B (xTrain raw) (yTrain raw) (xTest raw) (yTest raw)
          (nTest raw) b perm st = Except.ok (stOut, rep) ∧
      rep.testLoss = 0 / ((nTest raw : ℕ) : ℚ) ∧
      rep.testMSE = 0 / ((nTest raw : ℕ) : ℚ) ∧
      ((nTest raw : ℕ) : ℚ) = 0 := by
  have hnt : nTest raw = 0 := by
    simp [nTest, yTest, htarget, Ntrain]
  have hxe : xTest raw = [] := by
    apply List.drop_eq_nil_of_le
    rw [normalize, List.length_map, hdata]
    norm_num [Ntrain]
  have hrs : rangeStepInt (nTest raw) b = Except.ok [] := by
    rw [hnt, rangeStepInt_pos 0 b hb, pyRangeStep_zero]
  refine ⟨hnt, hxe, hrs, fun st2 sl sm => by simp [evalLoop], ?_⟩
  refine ⟨_, _, epochStep_pos B (xTrain raw) (yTrain raw) (xTest raw)
    (yTest raw) (nTest raw) b perm st hb, ?_, ?_, ?_⟩
  · show (evalLoop B (xTest raw) (yTest raw) b.toNat
        (pyRangeStep (nTest raw) b.toNat) _ 0 0).2.1
        / ((nTest raw : ℕ) : ℚ) = _
    rw [hnt, pyRangeStep_zero]
    simp [evalLoop]
  · show (evalLoop B (xTest raw) (yTest raw) b.toNat
        (pyRangeStep (nTest raw) b.toNat) _ 0 0).2.2
        / ((nTest raw : ℕ) : ℚ) = _
    rw [hnt, pyRangeStep_zero]
    simp [evalLoop]
  · rw [hnt]
    simp

/-- Witness for C10 at a 60000-row dataset of empty feature rows. -/
theorem c10_empty_test_split_witness :
    raw60k.data.length = 60000 ∧ nTest raw60k = 0 ∧ xTest raw60k = [] := by
  obtain ⟨h1, h2, _⟩ :=
    c10_empty_test_split B0 raw60k 1 [] st0
      (by rw [raw60k]; exact List.length_replicate 60000 [])
      (by rw [raw60k]; exact List.length_replicate 60000 0) (by decide)
  exact ⟨by rw [raw60k]; exact List.length_replicate 60000 [], h1, h2⟩

/-- Configuration with non-positive epoch count 0 (and otherwise the
script's defaults), used as the counterexample input for C6. -/
def cfgEpoch0 : Config := ⟨"", "", "normal", -1, 0, 100⟩

/-- Configuration with negative epoch count, for the C6 witness. -/
def cfgNegEpoch : Config := ⟨"", "", "normal", -1, -3, 100⟩

/-- Configuration with a model-init checkpoint path set. -/
def cfgInit : Config := ⟨"model.npz", "", "normal", -1, 20, 100⟩

/-- C3: the run is a deterministic function of its configuration and of the
oracles for the dataset, the numeric backend, the loaders and the seeded
permutation stream (the only randomness, `np.random.permutation`, enters
through `rng`): two runs with identical configuration and identical oracles
produce the same result, and in particular identical final saved parameter
and optimizer values. -/
theorem c3_run_deterministic {P O : Type} (B : Backend P O) (raw : RawMnist)
    (lm : String → Except RunError P) (lo : String → Except RunError O)
    (rng : ℕ → List ℕ) (cfg1 cfg2 : Config) (h : cfg1 = cfg2) :
    run B raw lm lo rng cfg1 = run B raw lm lo rng cfg2 ∧
    ∀ o1 o2, run B raw lm lo rng cfg1 = Except.ok o1 →
      run B raw lm lo rng cfg2 = Except.ok o2 →
      o1.savedModel = o2.savedModel ∧ o1.savedOptimizer = o2.savedOptimizer := by
  subst h
  refine ⟨rfl, fun o1 o2 h1 h2 => ?_⟩
  rw [h1] at h2
  injection h2 with h3
  subst h3
  exact ⟨rfl, rfl⟩

/-- Witness for C3 at a concrete configuration and oracles. -/
theorem c3_run_deterministic_witness :
    run B0 raw0 ld0 ld0 rng0 cfgEpoch0 = run B0 raw0 ld0 ld0 rng0 cfgEpoch0 :=
  (c3_run_deterministic B0 raw0 ld0 ld0 rng0 cfgEpoch0 cfgEpoch0 rfl).1

/-- C7: when a model-init path is configured (non-empty) and its load
fails, the run aborts with exactly that I/O error (the error is the run's
result, so no training occurs, nothing is saved, and there is no silent
fallback to fresh initialization); likewise for a configured resume path
whose load fails, whether or not a model-init load succeeded first; and
when no checkpoint path is configured the loaders are never consulted: the
run is the same for any loader oracles. -/
theorem c7_checkpoint_load_failure {P O : Type} (B : Backend P O)
    (raw : RawMnist) (lm : String → Except RunError P)
    (lo : String → Except RunError O) (rng : ℕ → List ℕ) (cfg : Config) :
    (∀ e, cfg.initmodel ≠ "" → lm cfg.initmodel = Except.error e →
        run B raw lm lo rng cfg = Except.error e) ∧
    (∀ e, (cfg.initmodel = "" ∨ ∃ p, lm cfg.initmodel = Except.ok p) →
        cfg.resume ≠ "" → lo cfg.resume = Except.error e →
        run B raw lm lo rng cfg = Except.error e) ∧
    (cfg.initmodel = "" → cfg.resume = "" →
        ∀ (lm2 : String → Except RunError P)
          (lo2 : String → Except RunError O),
          run B raw lm lo rng cfg = run B raw lm2 lo2 rng cfg) := by
  refine ⟨?_, ?_, ?_⟩
  · intro e hne hl
    simp only [run, if_neg hne, hl]
  · intro e hinit hres hl
    rcases hinit with h0 | ⟨p, hp⟩
    · simp only [run, if_pos h0, if_neg hres, hl]
    · by_cases h0 : cfg.initmodel = ""
      · simp only [run, if_pos h0, if_neg hres, hl]
      · simp only [run, if_neg h0, hp, if_neg hres, hl]
  · intro h0 hr lm2 lo2
    simp only [run, if_pos h0, if_pos hr]

/-- Witness for C7: a failing loader with a configured init path aborts the
run with the loader's I/O error. -/
theorem c7_checkpoint_load_failure_witness :
    run B0 raw0 ld0 ldOk rng0 cfgInit
      = Except.error (RunError.ioError "load failed") :=
  (c7_checkpoint_load_failure B0 raw0 ld0 ldOk rng0 cfgInit).1
    (RunError.ioError "load failed") (by decide) rfl

/-- Counterexample to C6: with epoch count 0 (non-positive) the run does
not fail at all — it returns successfully, having executed no training
step, and the model is still saved (the saved parameters are in the `ok`
result), contradicting the claim that the run fails fast with a
configuration error and saves no model. -/
theorem c6_counterexample :
    cfgEpoch0.epoch ≤ 0 ∧
    run B0 raw0 ld0 ld0 rng0 cfgEpoch0
      = Except.ok ⟨[], B0.initP, B0.initO⟩ :=
  ⟨by decide, rfl⟩

/-- C6 amended: the script validates neither the epoch count nor the batch
size.  A non-positive epoch count yields a run with zero epochs that still
saves the freshly initialized model; a zero batch size together with at
least one epoch raises Python's uncaught `ValueError` at the first
batch-range construction — before any training step and before any save;
a negative batch size yields epochs whose training and evaluation loops
run zero batches (every epoch report is all zeros) and the untouched model
is still saved. -/
theorem c6_no_validation {P O : Type} (B : Backend P O) (raw : RawMnist)
    (lm : String → Except RunError P) (lo : String → Except RunError O)
    (rng : ℕ → List ℕ) (cfg : Config)
    (h1 : cfg.initmodel = "") (h2 : cfg.resume = "") :
    (cfg.epoch ≤ 0 →
        run B raw lm lo rng cfg = Except.ok ⟨[], B.initP, B.initO⟩) ∧
    (cfg.batchsize = 0 → 1 ≤ cfg.epoch →
        run B raw lm lo rng cfg = Except.error RunError.valueError) ∧
    (cfg.batchsize < 0 →
        run B raw lm lo rng cfg
          = Except.ok
              ⟨List.replicate cfg.epoch.toNat ⟨0, 0, 0, 0⟩,
               B.initP, B.initO⟩) := by
  refine ⟨?_, ?_, ?_⟩
  · intro he
    have hnum : epochNumbers cfg.epoch = [] := by
      rw [epochNumbers, Int.toNat_of_nonpos he]
      rfl
    simp only [run, if_pos h1, if_pos h2, hnum, runEpochs]
  · intro hb0 he1
    obtain ⟨k, hk⟩ : ∃ k, cfg.epoch.toNat = k + 1 :=
      ⟨cfg.epoch.toNat - 1, by omega⟩
    obtain ⟨es, hes⟩ : ∃ es, epochNumbers cfg.epoch = 1 :: es := by
      rw [epochNumbers, hk, List.range_succ_eq_map]
      exact ⟨((List.range k).map Nat.succ).map (· + 1), by simp⟩
    simp only [run, if_pos h1, if_pos h2, hes, runEpochs, hb0, epochStep_zero]
  · intro hneg
    have hrep := runEpochs_neg B (xTrain raw) (yTrain raw) (xTest raw)
      (yTest raw) (nTest raw) cfg.batchsize rng hneg (epochNumbers cfg.epoch)
    simp only [run, if_pos h1, if_pos h2, hrep]
    have hlen : (epochNumbers cfg.epoch).length = cfg.epoch.toNat := by
      rw [epochNumbers, List.length_map, List.length_range]
    rw [hlen]

/-- Witness for C6 amended: a negative epoch count completes with zero
epochs and still saves the model. -/
theorem c6_no_validation_witness :
    cfgNegEpoch.epoch ≤ 0 ∧
    run B0 raw0 ld0 ld0 rng0 cfgNegEpoch
      = Except.ok ⟨[], B0.initP, B0.initO⟩ :=
  ⟨by decide,
   (c6_no_validation B0 raw0 ld0 ld0 rng0 cfgNegEpoch rfl rfl).1 (by decide)⟩

end TrainMnist
